import Mathlib

/-!
Verification of the SyncMaster client data/state layer.

This file gives a shallow embedding, in Lean, of the pure logic of the
SyncMaster front end: the tag parser of the upload and edit-metadata
flows (src/components/Dashboard.tsx), the audio playback controller
(handleNextTrack, handlePrevTrack, toggleMute in
src/components/Dashboard.tsx), the remote data gateway operations
(updateTrackMetadata, submitApplication, uploadTrackFile,
subscribeToUserTracks in src/services/supabase.ts and
src/services/firebase.ts), and the generative-search response cleanup
(searchSyncDatabase, getTrendingSyncs).  JavaScript strings are modelled
as Lean strings (operated on through their character lists so that every
definition reduces in the kernel), JavaScript numbers used by the player
as rationals, the remote database as explicit list-of-rows state, and
external collaborators (the storage service, the JSON parser) as
function parameters.
-/

namespace SyncMaster

/-! ## Character-list utilities mirroring the JavaScript string methods -/

/-- Left brace character, used by the JSON-extraction model. -/
def lbrace : Char := '\x7b'

/-- Right brace character, used by the JSON-extraction model. -/
def rbrace : Char := '\x7d'

/-- JavaScript `s.split(',')` on the character list of `s`: splits at every
comma and keeps empty pieces, so a trailing comma yields a trailing empty
piece and the empty input yields one empty piece. -/
def jsSplitComma : List Char → List (List Char)
  | [] => [[]]
  | c :: rest =>
    match jsSplitComma rest with
    | [] => [[]]
    | h :: t => if c = ',' then [] :: h :: t else (c :: h) :: t

/-- Join a list of pieces with a comma between consecutive pieces; the
inverse of `jsSplitComma`. -/
def joinComma : List (List Char) → List Char
  | [] => []
  | [p] => p
  | p :: ps => p ++ ',' :: joinComma ps

/-- JavaScript `s.trim()`: drop whitespace from both ends (modelled with
the core whitespace predicate, which agrees with JavaScript on the ASCII
whitespace appearing in this application). -/
def jsTrim (l : List Char) : List Char :=
  ((l.dropWhile Char.isWhitespace).reverse.dropWhile Char.isWhitespace).reverse

/-- Does `hay` start with `needle`? -/
def startsWithCh : List Char → List Char → Bool
  | [], _ => true
  | _ :: _, [] => false
  | n :: ns, h :: hs => n = h && startsWithCh ns hs

/-- JavaScript `hay.includes(needle)` over character lists. -/
def containsCh (hay needle : List Char) : Bool :=
  match hay with
  | [] => startsWithCh needle []
  | _ :: hs => startsWithCh needle hay || containsCh hs needle

/-- Index of the first occurrence of `c`, JavaScript `indexOf` (as an
`Option` instead of the sentinel `-1`). -/
def firstIdx (c : Char) : List Char → Option Nat
  | [] => none
  | x :: xs => if x = c then some 0 else (firstIdx c xs).map (· + 1)

/-- Index of the last occurrence of `c`, JavaScript `lastIndexOf` (as an
`Option` instead of the sentinel `-1`). -/
def lastIdx (c : Char) (l : List Char) : Option Nat :=
  (firstIdx c l.reverse).map (fun i => l.length - 1 - i)

/-- JavaScript array indexing `arr[i]` with a possibly negative index:
negative indices and out-of-range indices give `undefined` (`none`). -/
def jsIndex {α : Type} (l : List α) (i : Int) : Option α :=
  if i < 0 then none else l.get? i.toNat

/-! ## Data model (src/types, translated from the TypeScript interfaces) -/

/-- Loop mode of the audio player. -/
inductive LoopMode where
  | off
  | all
  | one
deriving DecidableEq

/-- A Track row as the application sees it (camelCase shape). -/
structure Track where
  id : String
  userId : Option String
  title : String
  artist : String
  genre : String
  bpm : Option Nat
  tags : List String
  uploadDate : String
  duration : String
  description : Option String
  audioUrl : Option String
deriving DecidableEq

/-- Status of an application, from the TypeScript union type. -/
inductive ApplicationStatus where
  | pending
  | shortlisted
  | rejected
  | accepted
deriving DecidableEq

/-! ## Tag parsing (src/components/Dashboard.tsx, handleLibraryUploadSubmit
and handleEditTrackSubmit) -/

/-- Tag parsing of the upload and edit-metadata flows
(src/components/Dashboard.tsx lines 736, 822, 863):
`tagsInput ? tagsInput.split(',').map(t => t.trim()) : []`. -/
def parseTags (s : String) : List String :=
  if s = "" then []
  else (jsSplitComma s.data).map (fun p => String.mk (jsTrim p))

/-- Tag parsing of the first dashboard variant
(src/components/Dashboard.tsx lines 122 and 174), which lacks the
empty-input guard: `(formData.get('tags') as string).split(',').map(t => t.trim())`. -/
def parseTagsRaw (s : String) : List String :=
  (jsSplitComma s.data).map (fun p => String.mk (jsTrim p))

/-! ## Audio playback controller (src/components/Dashboard.tsx) -/

/-- State of the audio playback controller of the dashboard view-model:
the React state variables next to the `<audio>` element, with the
`currentTime` of the media element folded in.  Volumes and times are
rationals (JavaScript numbers hold only small decimal fractions here). -/
structure PlayerState where
  queue : List Track
  currentTrackIndex : Int
  currentTrack : Option Track
  isPlaying : Bool
  currentTime : ℚ
  volume : ℚ
  prevVolume : ℚ
  loopMode : LoopMode
deriving DecidableEq

/-- Advance to the next track (src/components/Dashboard.tsx lines 965 to
978, `handleNextTrack(isAuto)`): no-op on an empty queue or when
`currentTrackIndex === -1`; on an automatic advance with loop off at the
last index, stop instead of wrapping; otherwise move to
`(currentTrackIndex + 1) % queue.length` (JavaScript remainder, which is
`Int.tmod`) and play that queue entry. -/
def handleNextTrack (isAuto : Bool) (s : PlayerState) : PlayerState :=
  if s.queue.length = 0 ∨ s.currentTrackIndex = -1 then s
  else if isAuto = true ∧ s.loopMode = LoopMode.off ∧
       s.currentTrackIndex = (s.queue.length : Int) - 1 then
    { s with isPlaying := false }
  else
    let nextIndex := Int.tmod (s.currentTrackIndex + 1) (s.queue.length : Int)
    { s with currentTrackIndex := nextIndex,
             currentTrack := jsIndex s.queue nextIndex,
             isPlaying := true }

/-- Go to the previous track (src/components/Dashboard.tsx lines 980 to
993, `handlePrevTrack`): no-op on an empty queue or when
`currentTrackIndex === -1`; if the media element reports more than 3
seconds elapsed, restart the current track (set its time to 0) and change
nothing else; otherwise move to
`(currentTrackIndex - 1 + queue.length) % queue.length` and play that
queue entry. -/
def handlePrevTrack (s : PlayerState) : PlayerState :=
  if s.queue.length = 0 ∨ s.currentTrackIndex = -1 then s
  else if s.currentTime > 3 then { s with currentTime := 0 }
  else
    let prevIndex :=
      Int.tmod (s.currentTrackIndex - 1 + (s.queue.length : Int)) (s.queue.length : Int)
    { s with currentTrackIndex := prevIndex,
             currentTrack := jsIndex s.queue prevIndex,
             isPlaying := true }

/-- Volume slider handler (src/components/Dashboard.tsx line 1890):
`onChange={(e) => setVolume(parseFloat(e.target.value))}`. -/
def setVolume (v : ℚ) (s : PlayerState) : PlayerState :=
  { s with volume := v }

/-- Mute toggle (src/components/Dashboard.tsx lines 1001 to 1008):
when audible, remember the volume and set it to 0; when muted, restore
the remembered volume, defaulting to 0.7 when nothing positive was
remembered. -/
def toggleMute (s : PlayerState) : PlayerState :=
  if s.volume > 0 then { s with prevVolume := s.volume, volume := 0 }
  else { s with volume := if s.prevVolume > 0 then s.prevVolume else 7/10 }

/-! ## Remote data gateway: track metadata updates (src/services/supabase.ts) -/

/-- A partial updates payload for `updateTrackMetadata`
(TypeScript `Partial<Track>` restricted to the fields the gateway reads). -/
structure TrackUpdates where
  title : Option String
  artist : Option String
  genre : Option String
  bpm : Option Nat
  tags : Option (List String)
  description : Option String
deriving DecidableEq

/-- Effect of `updateTrackMetadata` (src/services/supabase.ts lines 650 to
665) on one stored row: each field of the payload is copied into the row
only when its JavaScript value is truthy (`if (updates.title)
dbUpdates.title = updates.title` and so on), so an absent field, an empty
string, or a bpm of 0 leaves the stored field unchanged, while any
supplied tags array (even the empty one) is applied.  Fields not read by
the function (id, userId, uploadDate, duration, audioUrl) are untouched. -/
def applyTrackUpdates (t : Track) (u : TrackUpdates) : Track :=
  { t with
    title := match u.title with
      | some v => if v = "" then t.title else v
      | none => t.title,
    artist := match u.artist with
      | some v => if v = "" then t.artist else v
      | none => t.artist,
    genre := match u.genre with
      | some v => if v = "" then t.genre else v
      | none => t.genre,
    bpm := match u.bpm with
      | some b => if b = 0 then t.bpm else some b
      | none => t.bpm,
    tags := match u.tags with
      | some l => l
      | none => t.tags,
    description := match u.description with
      | some v => if v = "" then t.description else some v
      | none => t.description }

/-- `updateTrackMetadata(trackId, updates)` over the tracks table: the
remote `update ... eq('id', trackId)` applies the truthy fields of the
payload to every row whose id matches; absent a remote error the call
resolves successfully with the updated table. -/
def updateTrackMetadata (table : List Track) (trackId : String)
    (u : TrackUpdates) : List Track :=
  table.map (fun t => if t.id = trackId then applyTrackUpdates t u else t)

/-! ## Remote data gateway: application submission (src/services/supabase.ts) -/

/-- The caller-supplied part of an application row
(`Omit<Application, 'id'>` without the owner id, which is passed
separately). -/
structure AppPayload where
  briefId : String
  trackId : String
  status : ApplicationStatus
  submittedDate : String
deriving DecidableEq

/-- A stored application row.  The primary key is modelled as a natural
number; the remote schema declares `id uuid default gen_random_uuid()
primary key` (the SQL embedded in src/services/supabase.ts lines 455 to
462), so every insert receives a fresh id. -/
structure AppRow where
  id : Nat
  userId : String
  briefId : String
  trackId : String
  status : ApplicationStatus
  submittedDate : String
deriving DecidableEq

/-- The remote applications table together with the id generator that
stands for `gen_random_uuid()`: ids already handed out are below
`nextId`. -/
structure ApplicationsTable where
  rows : List AppRow
  nextId : Nat
deriving DecidableEq

/-- `submitApplication(application, userId)` (src/services/supabase.ts
lines 667 to 684): translate the payload to the snake_case row shape and
insert it; there is no lookup of existing rows, no uniqueness constraint
and no merge.  Returns the new table and the id of the inserted row
(the function returns `data.id`). -/
def submitApplication (db : ApplicationsTable) (p : AppPayload)
    (userId : String) : ApplicationsTable × Nat :=
  let row : AppRow :=
    { id := db.nextId, userId := userId, briefId := p.briefId,
      trackId := p.trackId, status := p.status,
      submittedDate := p.submittedDate }
  ({ rows := db.rows ++ [row], nextId := db.nextId + 1 }, row.id)

/-! ## Storage upload with bucket fallback (src/services/supabase.ts) -/

/-- Error object returned by a failed storage upload attempt: a message
and the optional `statusCode` the code inspects. -/
structure StorageErr where
  message : String
  statusCode : Option String
deriving DecidableEq

/-- The "bucket not found" test of src/services/supabase.ts line 579:
`uploadError.message.includes('not found') || uploadError.statusCode === '404'`. -/
def isNotFoundErr (e : StorageErr) : Bool :=
  containsCh e.message.data "not found".data ||
    match e.statusCode with
    | some c => c = "404"
    | none => false

/-- Configuration hint appended to the error thrown when every upload
attempt failed (src/services/supabase.ts line 606). -/
def uploadHint : String :=
  ". IMPORTANT: You must create a public storage bucket named 'Syncmaster' in Supabase AND add RLS policies to allow uploads."

/-- `uploadTrackFile(file, userId)` (src/services/supabase.ts lines 562 to
611) with the storage service abstracted as `attempt` (result of
uploading the file to a bucket of the given name; `none` is success) and
`getPublicUrl` (the public URL of the stored object in the given bucket):
try the bucket `Syncmaster`; on a "not found" failure retry `syncmaster`,
and if that retry fails for any reason retry `tracks`; when the surviving
error is non-null throw the configuration-hint error, otherwise return
the public URL from the last bucket tried. -/
def uploadTrackFile (attempt : String → Option StorageErr)
    (getPublicUrl : String → String) : Except String String :=
  match attempt "Syncmaster" with
  | none => .ok (getPublicUrl "Syncmaster")
  | some e =>
    if isNotFoundErr e then
      match attempt "syncmaster" with
      | none => .ok (getPublicUrl "syncmaster")
      | some _ =>
        match attempt "tracks" with
        | none => .ok (getPublicUrl "tracks")
        | some e2 => .error ("Upload Failed: " ++ e2.message ++ uploadHint)
    else .error ("Upload Failed: " ++ e.message ++ uploadHint)

/-! ## Subscription adapters: initial track fetch (src/services/supabase.ts
and src/services/firebase.ts) -/

/-- A row of the remote `tracks` table in its snake_case shape. -/
structure DbTrackRow where
  id : String
  user_id : String
  title : String
  artist : String
  genre : String
  bpm : Option Nat
  tags : Option (List String)
  upload_date : String
  duration : String
  description : Option String
  audio_url : Option String
deriving DecidableEq

/-- Boundary translation of one remote row to the camelCase Track shape
(src/services/supabase.ts lines 288 to 300), including `t.tags || []`. -/
def dbRowToTrack (r : DbTrackRow) : Track :=
  { id := r.id, userId := some r.user_id, title := r.title,
    artist := r.artist, genre := r.genre, bpm := r.bpm,
    tags := r.tags.getD [], uploadDate := r.upload_date,
    duration := r.duration, description := r.description,
    audioUrl := r.audio_url }

/-- The list delivered to the subscriber by the initial fetch of
`subscribeToUserTracks` in src/services/supabase.ts (lines 285 to 310),
as a function of the remote response (the rows the remote returned for
the owner filter, or the error it raised): on success the mapped rows,
on a response error or a rejected promise the empty list
(`callback([])`). -/
def subscribeToUserTracksInitial
    (remote : Except String (List DbTrackRow)) : List Track :=
  match remote with
  | .ok rows => rows.map dbRowToTrack
  | .error _ => []

/-- The Local Fallback Store blob held in localStorage under
`syncmaster_mock_db` (src/services/firebase.ts lines 122 to 138). -/
structure MockDb where
  tracks : List Track
  applications : List AppPayload
deriving DecidableEq

/-- Read of the Local Fallback Store performed by the mock-mode branch of
`subscribeToUserTracks` (src/services/firebase.ts lines 240 to 253):
filter the stored tracks by the owner id.  This branch runs only when the
backend client was never configured (`!db`), not on a per-call network
error. -/
def localUserTracks (db : MockDb) (userId : String) : List Track :=
  db.tracks.filter (fun t => t.userId = some userId)

/-! ## Generative-search response cleanup (src/unnamed/part_002) -/

/-- Substring extraction performed before `JSON.parse`: with
`i = text.indexOf(l)` and `j = text.lastIndexOf(r)`, when both are found
return `text.substring(i, j + 1)` (JavaScript `substring` exchanges its
arguments when the first is larger), otherwise return the text
unchanged. -/
def extractDelimited (l r : Char) (s : String) : String :=
  match firstIdx l s.data, lastIdx r s.data with
  | some i, some j =>
    if i ≤ j then String.mk ((s.data.drop i).take (j + 1 - i))
    else String.mk ((s.data.drop (j + 1)).take (i - (j + 1)))
  | _, _ => s

/-- The `response.text || dflt` defaulting of the adapter: a missing or
empty provider text is replaced by the given default. -/
def geminiText (responseText : Option String) (dflt : String) : String :=
  match responseText with
  | none => dflt
  | some t => if t = "" then dflt else t

/-- Response handling of `searchSyncDatabase` (src/unnamed/part_002 lines
234 to 285) with the provider call and `JSON.parse` abstracted: default
the text to "\x7b\x7d", cut it down to the first left brace through the
last right brace, and parse; a parse failure is caught and yields
`null` (`none`). -/
def searchSyncDatabase {α : Type} (parse : String → Option α)
    (responseText : Option String) : Option α :=
  parse (extractDelimited lbrace rbrace (geminiText responseText "\x7b\x7d"))

/-- Response handling of `getTrendingSyncs` (src/unnamed/part_002 lines
405 to 454) with the provider call and `JSON.parse` abstracted: default
the text to "[]", cut it down to the first left bracket through the last
right bracket, and parse; a parse failure is caught and yields the empty
list. -/
def getTrendingSyncs {α : Type} (parse : String → Option (List α))
    (responseText : Option String) : List α :=
  (parse (extractDelimited '[' ']' (geminiText responseText "[]"))).getD []

/-! ## Concrete fixtures used by counterexamples and witnesses -/

/-- A first sample track. -/
def trackA : Track :=
  { id := "t0", userId := some "u1", title := "Alpha", artist := "Ann",
    genre := "Rock", bpm := some 120, tags := ["Epic"],
    uploadDate := "2024-01-01", duration := "3:00", description := none,
    audioUrl := some "https://storage/a.mp3" }

/-- A second sample track. -/
def trackB : Track :=
  { trackA with id := "t1", title := "Beta" }

/-- A third sample track. -/
def trackC : Track :=
  { trackA with id := "t2", title := "Gamma" }

/-- Player state with a three-track queue, playing the middle track, with
2.0 seconds elapsed. -/
def exPlayerTwoSec : PlayerState :=
  { queue := [trackA, trackB, trackC], currentTrackIndex := 1,
    currentTrack := some trackB, isPlaying := true, currentTime := 2,
    volume := 1, prevVolume := 1, loopMode := LoopMode.off }

/-- Player state with a three-track queue, playing the middle track, with
5.0 seconds elapsed. -/
def exPlayerFiveSec : PlayerState :=
  { exPlayerTwoSec with currentTime := 5 }

/-- Player state with a non-empty queue but queue index -1 (its initial
value, and the value `findIndex` produces for a track missing from the
context list). -/
def exPlayerNoIndex : PlayerState :=
  { queue := [trackA], currentTrackIndex := -1, currentTrack := none,
    isPlaying := false, currentTime := 0, volume := 1, prevVolume := 1,
    loopMode := LoopMode.off }

/-- Player state at the last index of a three-track queue with loop off. -/
def exPlayerAtEnd : PlayerState :=
  { queue := [trackA, trackB, trackC], currentTrackIndex := 2,
    currentTrack := some trackC, isPlaying := true, currentTime := 0,
    volume := 1, prevVolume := 1, loopMode := LoopMode.off }

/-- Player state at the last index of a three-track queue with loop all. -/
def exPlayerAtEndLoopAll : PlayerState :=
  { exPlayerAtEnd with loopMode := LoopMode.all }

/-- An updates payload whose only supplied field is a new artist name. -/
def artistOnlyUpdates : TrackUpdates :=
  { title := none, artist := some "Bob", genre := none, bpm := none,
    tags := none, description := none }

/-- An updates payload whose supplied fields are all JavaScript-falsy:
empty strings and a bpm of 0. -/
def falsyUpdates : TrackUpdates :=
  { title := some "", artist := some "", genre := some "", bpm := some 0,
    tags := none, description := some "" }

/-- A Local Fallback Store holding one track owned by user `u1`. -/
def exMockDb : MockDb :=
  { tracks := [trackA], applications := [] }

/-- A storage service where the buckets `Syncmaster` and `syncmaster` do
not exist and `tracks` accepts the upload. -/
def attemptOnlyTracks : String → Option StorageErr :=
  fun b => if b = "tracks" then none
    else some { message := "Bucket not found", statusCode := some "404" }

/-- A storage service rejecting every upload with a non-"not found"
error. -/
def attemptDenied : String → Option StorageErr :=
  fun _ => some { message := "new row violates row-level security policy",
                  statusCode := some "403" }

/-- A storage service accepting every upload. -/
def attemptAccept : String → Option StorageErr := fun _ => none

/-- A public-URL accessor for the fixtures. -/
def gpuMock : String → String := fun b => "https://storage/" ++ b ++ "/f.mp3"

/-- A JSON parser stub recognising exactly the object payload used by the
extraction witness. -/
def parseObjMock : String → Option Nat :=
  fun s => if s = "\x7b\"a\":1\x7d" then some 1 else none

/-- A JSON parser stub recognising exactly the array payload used by the
extraction witness. -/
def parseArrMock : String → Option (List Nat) :=
  fun s => if s = "[1,2]" then some [1, 2] else none

/-- A JSON parser stub that always fails. -/
def parseFailMock {α : Type} : String → Option α := fun _ => none

/-! ## Supporting lemmas -/

/-- Splitting at commas never yields an empty list of pieces. -/
theorem jsSplitComma_ne_nil (l : List Char) : jsSplitComma l ≠ [] := by
  cases l with
  | nil => simp [jsSplitComma]
  | cons c rest =>
    simp only [jsSplitComma]
    cases h : jsSplitComma rest with
    | nil => simp
    | cons a t => by_cases hc : c = ',' <;> simp [hc]

/-- Prepending a character to the first piece commutes with joining. -/
theorem joinComma_cons_cons (c : Char) (h : List Char)
    (t : List (List Char)) :
    joinComma ((c :: h) :: t) = c :: joinComma (h :: t) := by
  cases t <;> simp [joinComma]

/-- Joining the comma-split pieces with commas restores the input: the
split loses no characters and keeps the pieces in order. -/
theorem joinComma_jsSplitComma (l : List Char) :
    joinComma (jsSplitComma l) = l := by
  induction l with
  | nil => rfl
  | cons c rest ih =>
    obtain ⟨a, t, hs⟩ : ∃ a t, jsSplitComma rest = a :: t := by
      cases h : jsSplitComma rest with
      | nil => exact absurd h (jsSplitComma_ne_nil rest)
      | cons a t => exact ⟨a, t, rfl⟩
    rw [hs] at ih
    by_cases hc : c = ','
    · subst hc
      simp only [jsSplitComma, hs, if_pos rfl, joinComma]
      simpa [joinComma] using ih
    · simp only [jsSplitComma, hs, if_neg hc]
      rw [joinComma_cons_cons, ih]

/-- The first occurrence of a character that is absent from a leading
segment lies past that segment. -/
theorem firstIdx_append_of_not_mem (c : Char) {l1 : List Char}
    (l2 : List Char) (h : c ∉ l1) :
    firstIdx c (l1 ++ l2) = (firstIdx c l2).map (· + l1.length) := by
  induction l1 with
  | nil =>
    cases h2 : firstIdx c l2 <;> simp [h2]
  | cons x xs ih =>
    have hx : ¬ x = c := fun hh => h (hh ▸ List.mem_cons_self x xs)
    have ih2 := ih (fun hm => h (List.mem_cons_of_mem _ hm))
    simp only [List.cons_append, firstIdx, if_neg hx, List.append_eq]
    rw [ih2]
    cases h2 : firstIdx c l2 with
    | none => simp [h2]
    | some v => simp [h2]; omega

/-- A list starting with the sought character has first index 0. -/
theorem firstIdx_cons_self (c : Char) (xs : List Char) :
    firstIdx c (c :: xs) = some 0 := by
  simp [firstIdx]

/-- First index of the opening delimiter of a wrapped payload. -/
theorem firstIdx_wrapped (c : Char) (A B : List Char) (h : c ∉ A) :
    firstIdx c (A ++ (c :: B)) = some A.length := by
  rw [firstIdx_append_of_not_mem c (c :: B) h, firstIdx_cons_self]
  simp

/-- Last index of the closing delimiter of a wrapped payload: with the
closing delimiter absent from the trailing segment, it is the position of
the payload's final character. -/
theorem lastIdx_wrapped (r : Char) (A B mid : List Char) (P : List Char)
    (hB : r ∉ B) (hP : P = mid ++ [r]) :
    lastIdx r (A ++ P ++ B) = some (A.length + P.length - 1) := by
  subst hP
  unfold lastIdx
  have hrev : (A ++ (mid ++ [r]) ++ B).reverse
      = B.reverse ++ (r :: (mid.reverse ++ A.reverse)) := by
    simp
  rw [hrev, firstIdx_wrapped r B.reverse (mid.reverse ++ A.reverse)
    (fun hm => hB (List.mem_reverse.mp hm))]
  simp only [Option.map_some, List.length_reverse, List.length_append,
    List.length_cons]
  simp
  omega

/-- Outermost-delimiter extraction recovers a well-formed payload from a
wrapped text: when the opening delimiter does not occur before the
payload and the closing delimiter does not occur after it, cutting from
the first opening delimiter through the last closing delimiter returns
exactly the payload. -/
theorem extractDelimited_wrapped (l r : Char) (pre payload post : String)
    (mid : List Char) (hpre : l ∉ pre.data) (hpost : r ∉ post.data)
    (hpay : payload.data = l :: (mid ++ [r])) :
    extractDelimited l r (pre ++ payload ++ post) = payload := by
  have hdata : (pre ++ payload ++ post).data
      = pre.data ++ payload.data ++ post.data := by simp
  have hfirst : firstIdx l (pre.data ++ payload.data ++ post.data)
      = some pre.data.length := by
    rw [List.append_assoc, hpay, List.cons_append]
    exact firstIdx_wrapped l pre.data _ hpre
  have hlast : lastIdx r (pre.data ++ payload.data ++ post.data)
      = some (pre.data.length + payload.data.length - 1) := by
    exact lastIdx_wrapped r pre.data post.data (l :: mid) payload.data hpost
      (by rw [hpay]; simp)
  have hplen : payload.data.length = mid.length + 2 := by
    rw [hpay]; simp
  unfold extractDelimited
  rw [hdata, hfirst, hlast]
  dsimp only
  rw [if_pos (by omega)]
  have hcut : pre.data.length + payload.data.length - 1 + 1
      - pre.data.length = payload.data.length := by omega
  rw [hcut, List.append_assoc, List.drop_left, List.take_left' rfl]

/-! ## Claim C1 — tag normalization -/

/-- Claim C1, counterexample: the tag parse of the upload and
edit-metadata flows does not drop empty entries, so the input
`" Epic, dark ,Trailer, "` parses to `["Epic", "dark", "Trailer", ""]`
(the trailing comma leaves a trailing empty tag), not to the claimed
`["Epic", "dark", "Trailer"]`.  The same holds for the variant without
the empty-input guard. -/
theorem parseTags_keeps_empty_counterexample :
    parseTags " Epic, dark ,Trailer, " = ["Epic", "dark", "Trailer", ""] ∧
    parseTags " Epic, dark ,Trailer, " ≠ ["Epic", "dark", "Trailer"] ∧
    parseTagsRaw " Epic, dark ,Trailer, " ≠ ["Epic", "dark", "Trailer"] := by
  decide

/-- Claim C1, amended: for every non-empty comma-separated input, the
parsed tag list has exactly one entry per comma-separated piece
(empty entries are kept, not dropped), each entry is the corresponding
piece trimmed, order is preserved (joining the pieces back with commas
restores the input), and the example input
`" Epic, dark ,Trailer, "` yields `["Epic", "dark", "Trailer", ""]`. -/
theorem parseTags_pieces (s : String) (hs : s ≠ "") :
    (parseTags s).length = (jsSplitComma s.data).length ∧
    (∀ i : Nat, (parseTags s)[i]? =
      ((jsSplitComma s.data)[i]?).map (fun p => String.mk (jsTrim p))) ∧
    joinComma (jsSplitComma s.data) = s.data ∧
    parseTags " Epic, dark ,Trailer, " = ["Epic", "dark", "Trailer", ""] := by
  refine ⟨?_, ?_, joinComma_jsSplitComma s.data, by decide⟩
  · simp [parseTags, if_neg hs]
  · intro i
    simp [parseTags, if_neg hs]

/-- Claim C1, witness for `parseTags_pieces` at the example input. -/
theorem parseTags_pieces_witness :
    (parseTags " Epic, dark ,Trailer, ").length = 4 ∧
    (parseTags " Epic, dark ,Trailer, ")[3]? = some "" := by
  have h := parseTags_pieces " Epic, dark ,Trailer, " (by decide)
  refine ⟨?_, ?_⟩
  · rw [h.1]; decide
  · rw [h.2.1 3]; decide

/-! ## Claim C2 — restart-versus-previous threshold -/

/-- Claim C2, counterexample: at a playback time of 2.0 seconds,
`handlePrevTrack` moves to the prior queue index (the track changes and
the time is not reset), contrary to the claim that it restarts the same
track; the threshold test of the code is `currentTime > 3`, so 2.0
seconds falls on the change-track side. -/
theorem handlePrevTrack_two_seconds_counterexample :
    (handlePrevTrack exPlayerTwoSec).currentTrackIndex = 0 ∧
    (handlePrevTrack exPlayerTwoSec).currentTrack = some trackA ∧
    (handlePrevTrack exPlayerTwoSec).currentTrack ≠
      exPlayerTwoSec.currentTrack ∧
    (handlePrevTrack exPlayerTwoSec).currentTime = 2 := by
  decide

/-- Claim C2, amended: the two behaviours are swapped with respect to the
claim.  For every state with a non-empty queue and a valid queue index,
`previous()` at a playback time of 2.0 seconds moves to the prior queue
index `(queueIndex - 1 + len) mod len` and plays it, leaving the time
untouched; at 5.0 seconds it restarts the same track, resetting the time
to 0 and changing nothing else (more than 3 seconds counts as a
restart). -/
theorem handlePrevTrack_threshold (s : PlayerState)
    (hq : s.queue.length ≠ 0) (hi : 0 ≤ s.currentTrackIndex) :
    (s.currentTime = 2 →
      (handlePrevTrack s).currentTrackIndex =
        (s.currentTrackIndex - 1 + s.queue.length) % (s.queue.length : Int) ∧
      (handlePrevTrack s).currentTrack =
        jsIndex s.queue
          ((s.currentTrackIndex - 1 + s.queue.length) % (s.queue.length : Int)) ∧
      (handlePrevTrack s).isPlaying = true ∧
      (handlePrevTrack s).currentTime = s.currentTime) ∧
    (s.currentTime = 5 → handlePrevTrack s = { s with currentTime := 0 }) := by
  have hguard : ¬ (s.queue.length = 0 ∨ s.currentTrackIndex = -1) := by
    push_neg
    exact ⟨hq, by omega⟩
  have hlen : (0 : Int) ≤ (s.queue.length : Int) := by positivity
  have htmod : Int.tmod (s.currentTrackIndex - 1 + (s.queue.length : Int))
      (s.queue.length : Int)
      = (s.currentTrackIndex - 1 + s.queue.length) % (s.queue.length : Int) := by
    refine Int.tmod_eq_emod ?_ hlen
    omega
  constructor
  · intro ht
    have hnot : ¬ s.currentTime > 3 := by rw [ht]; norm_num
    simp only [handlePrevTrack, if_neg hguard, if_neg hnot, htmod]
    exact ⟨trivial, trivial, trivial, trivial⟩
  · intro ht
    have hgt : s.currentTime > 3 := by rw [ht]; norm_num
    simp only [handlePrevTrack, if_neg hguard, if_pos hgt]

/-- Claim C2, witness for `handlePrevTrack_threshold` at the concrete
three-track states. -/
theorem handlePrevTrack_threshold_witness :
    ((handlePrevTrack exPlayerTwoSec).currentTrackIndex = 0 ∧
      (handlePrevTrack exPlayerTwoSec).isPlaying = true) ∧
    handlePrevTrack exPlayerFiveSec = { exPlayerFiveSec with currentTime := 0 } := by
  have h2 := handlePrevTrack_threshold exPlayerTwoSec (by decide) (by decide)
  have h5 := handlePrevTrack_threshold exPlayerFiveSec (by decide) (by decide)
  refine ⟨⟨?_, (h2.1 rfl).2.2.1⟩, h5.2 rfl⟩
  rw [(h2.1 rfl).1]
  decide

/-! ## Claim C3 — queue advance -/

/-- Claim C3, counterexample: `handleNextTrack` is also a no-op when the
queue is non-empty but the queue index is -1 (the initial value of
`currentTrackIndex`), a case in which the claim requires it to move to
`(queueIndex + 1) mod len` and start playing. -/
theorem handleNextTrack_no_index_counterexample :
    exPlayerNoIndex.queue ≠ [] ∧
    handleNextTrack false exPlayerNoIndex = exPlayerNoIndex ∧
    (handleNextTrack false exPlayerNoIndex).isPlaying = false := by
  decide

/-- Claim C3, amended: `advance(auto)` is a no-op when the queue is empty
or when the queue index is -1 (no track selected from the queue); when
called with `auto = true`, loop mode off and the queue index at the last
position, it only clears `isPlaying` (current track unchanged, no wrap);
in every other case with a valid queue index it moves to
`(queueIndex + 1) mod len`, makes that queue entry the current track, and
sets `isPlaying` (with loop mode `all` at the last index this wraps to
index 0). -/
theorem handleNextTrack_cases (s : PlayerState) (auto : Bool) :
    (s.queue = [] → handleNextTrack auto s = s) ∧
    (s.currentTrackIndex = -1 → handleNextTrack auto s = s) ∧
    (auto = true → s.loopMode = LoopMode.off →
      s.currentTrackIndex = (s.queue.length : Int) - 1 → s.queue ≠ [] →
      handleNextTrack auto s = { s with isPlaying := false }) ∧
    (s.queue ≠ [] → 0 ≤ s.currentTrackIndex →
      ¬(auto = true ∧ s.loopMode = LoopMode.off ∧
        s.currentTrackIndex = (s.queue.length : Int) - 1) →
      handleNextTrack auto s =
        { s with
          currentTrackIndex :=
            (s.currentTrackIndex + 1) % (s.queue.length : Int),
          currentTrack :=
            jsIndex s.queue ((s.currentTrackIndex + 1) % (s.queue.length : Int)),
          isPlaying := true }) := by
  refine ⟨?_, ?_, ?_, ?_⟩
  · intro h
    simp [handleNextTrack, h]
  · intro h
    simp [handleNextTrack, h]
  · intro ha hl hidx hne
    have hlen : s.queue.length ≠ 0 := fun h0 => hne (List.length_eq_zero.mp h0)
    have hguard : ¬ (s.queue.length = 0 ∨ s.currentTrackIndex = -1) := by
      push_neg
      exact ⟨hlen, by omega⟩
    simp only [handleNextTrack, if_neg hguard,
      if_pos (And.intro ha (And.intro hl hidx))]
  · intro hne hi hnot
    have hlen : s.queue.length ≠ 0 := fun h0 => hne (List.length_eq_zero.mp h0)
    have hguard : ¬ (s.queue.length = 0 ∨ s.currentTrackIndex = -1) := by
      push_neg
      exact ⟨hlen, by omega⟩
    have htmod : Int.tmod (s.currentTrackIndex + 1) (s.queue.length : Int)
        = (s.currentTrackIndex + 1) % (s.queue.length : Int) :=
      Int.tmod_eq_emod (by omega) (by positivity)
    simp only [handleNextTrack, if_neg hguard, if_neg hnot, htmod]

/-- Claim C3, witness for `handleNextTrack_cases`: on a three-track queue
at the last index an automatic advance with loop off stops playback, and
with loop all it wraps to index 0 and keeps playing. -/
theorem handleNextTrack_cases_witness :
    handleNextTrack true exPlayerAtEnd = { exPlayerAtEnd with isPlaying := false } ∧
    ((handleNextTrack true exPlayerAtEndLoopAll).currentTrackIndex = 0 ∧
      (handleNextTrack true exPlayerAtEndLoopAll).currentTrack = some trackA ∧
      (handleNextTrack true exPlayerAtEndLoopAll).isPlaying = true) := by
  have hoff := (handleNextTrack_cases exPlayerAtEnd true).2.2.1
    rfl rfl (by decide) (by decide)
  have hall := (handleNextTrack_cases exPlayerAtEndLoopAll true).2.2.2
    (by decide) (by decide) (by decide)
  refine ⟨hoff, ?_, ?_, ?_⟩ <;> rw [hall] <;> decide

/-! ## Claim C4 — read fallback on network error -/

/-- Claim C4, counterexample: when the remote fetch of the tracks
collection raises a network-class error, the subscription's initial
callback receives the empty list, not the records of the Local Fallback
Store: here the local store holds one track for owner `u1`, yet the
initial callback value on a failed fetch is `[]`. -/
theorem subscribeToUserTracks_error_counterexample :
    subscribeToUserTracksInitial (Except.error "Failed to fetch") = [] ∧
    localUserTracks exMockDb "u1" = [trackA] ∧
    subscribeToUserTracksInitial (Except.error "Failed to fetch") ≠
      localUserTracks exMockDb "u1" := by
  decide

/-- Claim C4, amended: when the remote fetch raises a network-class error
the subscription's initial callback receives the empty list (the error
handler and the promise rejection handler both run `callback([])`); on a
successful fetch it receives the boundary-translated rows.  The Local
Fallback Store serves the initial callback only in the unconfigured
mock mode of the firebase gateway, where the subscriber receives exactly
the locally stored records of that owner. -/
theorem subscribeToUserTracks_initial_spec :
    (∀ e : String, subscribeToUserTracksInitial (Except.error e) = []) ∧
    (∀ rows, subscribeToUserTracksInitial (Except.ok rows)
      = rows.map dbRowToTrack) ∧
    (∀ (db : MockDb) (uid : String) (t : Track),
      t ∈ localUserTracks db uid ↔ t ∈ db.tracks ∧ t.userId = some uid) := by
  refine ⟨fun e => rfl, fun rows => rfl, fun db uid t => ?_⟩
  simp [localUserTracks, List.mem_filter]

/-- Claim C4, witness for `subscribeToUserTracks_initial_spec` at a
concrete error and the one-track local store. -/
theorem subscribeToUserTracks_initial_spec_witness :
    subscribeToUserTracksInitial (Except.error "net down") = [] ∧
    trackA ∈ localUserTracks exMockDb "u1" := by
  refine ⟨subscribeToUserTracks_initial_spec.1 "net down", ?_⟩
  exact (subscribeToUserTracks_initial_spec.2.2 exMockDb "u1" trackA).mpr
    (by decide)

/-! ## Claim C5 — edit-metadata frame -/

/-- Claim C5, counterexample: `updateTrackMetadata` also applies the
`artist` field of the payload, so a field outside the claimed set
(title, genre, bpm, tags, description) changes: updating the fixture
track with an artist-only payload changes its stored artist from `Ann`
to `Bob`. -/
theorem updateTrackMetadata_artist_counterexample :
    (updateTrackMetadata [trackA] "t0" artistOnlyUpdates).map Track.artist
      = ["Bob"] ∧
    trackA.artist = "Ann" ∧
    (updateTrackMetadata [trackA] "t0" artistOnlyUpdates).map Track.artist
      ≠ [trackA].map Track.artist := by
  decide

/-- Claim C5, amended: `updateTrackMetadata` may change only the stored
track's title, artist, genre, bpm, tags and description; every other
field — in particular `audioUrl` (the audio file) and `userId`
(ownership), as well as the id, upload date and duration — is the same
after the call as before, regardless of what keys the updates payload
contains, on the updated row and across the whole table. -/
theorem updateTrackMetadata_frame (t : Track) (u : TrackUpdates) :
    (applyTrackUpdates t u).id = t.id ∧
    (applyTrackUpdates t u).userId = t.userId ∧
    (applyTrackUpdates t u).audioUrl = t.audioUrl ∧
    (applyTrackUpdates t u).uploadDate = t.uploadDate ∧
    (applyTrackUpdates t u).duration = t.duration ∧
    ∀ (table : List Track) (tid : String),
      (updateTrackMetadata table tid u).map
        (fun r => (r.id, r.userId, r.audioUrl, r.uploadDate, r.duration)) =
      table.map
        (fun r => (r.id, r.userId, r.audioUrl, r.uploadDate, r.duration)) := by
  refine ⟨rfl, rfl, rfl, rfl, rfl, ?_⟩
  intro table tid
  unfold updateTrackMetadata
  rw [List.map_map]
  refine List.map_congr_left ?_
  intro r _
  by_cases h : r.id = tid <;> simp [h, applyTrackUpdates]

/-! ## Claim C6 — submitApplication does not deduplicate -/

/-- Claim C6: two `submitApplication` calls with identical arguments each
insert: after the second call the table holds two additional rows, both
carrying the given brief id, track id and owner id, with distinct
generated ids; the second call is neither rejected nor merged with the
first. -/
theorem submitApplication_no_dedup (db : ApplicationsTable)
    (p : AppPayload) (uid : String) :
    ((submitApplication (submitApplication db p uid).1 p uid).1).rows =
      db.rows ++
        [{ id := (submitApplication db p uid).2, userId := uid,
           briefId := p.briefId, trackId := p.trackId, status := p.status,
           submittedDate := p.submittedDate },
         { id := (submitApplication (submitApplication db p uid).1 p uid).2,
           userId := uid, briefId := p.briefId, trackId := p.trackId,
           status := p.status, submittedDate := p.submittedDate }] ∧
    (submitApplication db p uid).2 ≠
      (submitApplication (submitApplication db p uid).1 p uid).2 ∧
    ((submitApplication (submitApplication db p uid).1 p uid).1).rows.length
      = db.rows.length + 2 := by
  refine ⟨?_, ?_, ?_⟩
  · simp [submitApplication]
  · simp [submitApplication]
  · simp [submitApplication]

/-! ## Claim C8 — mute/unmute round-trip -/

/-- Claim C8: from every starting state, after `setVolume(0.6)` one
`toggleMute()` sets the volume to 0 (remembering 0.6) and a second
`toggleMute()` restores the volume to exactly 0.6. -/
theorem toggleMute_roundTrip (s : PlayerState) :
    (toggleMute (setVolume (3/5) s)).volume = 0 ∧
    (toggleMute (toggleMute (setVolume (3/5) s))).volume = 3/5 := by
  have h1 : ((3 : ℚ)/5) > 0 := by norm_num
  have hfirst : toggleMute (setVolume (3/5) s)
      = { s with prevVolume := 3/5, volume := 0 } := by
    simp [toggleMute, setVolume, if_pos h1]
  refine ⟨by rw [hfirst], ?_⟩
  rw [hfirst]
  have h0 : ¬ ((0 : ℚ) > 0) := by norm_num
  simp [toggleMute, h0, if_pos h1]

/-! ## Claim C10 — truthiness guard of updateTrackMetadata -/

/-- Claim C10: a field of the updates payload reaches the stored row only
when its value is truthy: an empty string supplied for title, artist,
genre or description, or a bpm of 0, leaves the stored field unchanged,
and a payload consisting solely of such falsy values leaves the whole
table untouched while the call still resolves successfully. -/
theorem updateTrackMetadata_truthy_guard (t : Track) (u : TrackUpdates) :
    (u.title = some "" → (applyTrackUpdates t u).title = t.title) ∧
    (u.artist = some "" → (applyTrackUpdates t u).artist = t.artist) ∧
    (u.genre = some "" → (applyTrackUpdates t u).genre = t.genre) ∧
    (u.description = some "" →
      (applyTrackUpdates t u).description = t.description) ∧
    (u.bpm = some 0 → (applyTrackUpdates t u).bpm = t.bpm) ∧
    (∀ (table : List Track) (tid : String),
      updateTrackMetadata table tid falsyUpdates = table) := by
  refine ⟨?_, ?_, ?_, ?_, ?_, ?_⟩
  · intro h; simp [applyTrackUpdates, h]
  · intro h; simp [applyTrackUpdates, h]
  · intro h; simp [applyTrackUpdates, h]
  · intro h; simp [applyTrackUpdates, h]
  · intro h; simp [applyTrackUpdates, h]
  · intro table tid
    have hid : ∀ r : Track, applyTrackUpdates r falsyUpdates = r := by
      intro r
      simp [applyTrackUpdates, falsyUpdates]
    calc (updateTrackMetadata table tid falsyUpdates)
        = table.map (fun r => r) := by
          unfold updateTrackMetadata
          refine List.map_congr_left ?_
          intro r _
          by_cases h : r.id = tid <;> simp [h, hid]
      _ = table := List.map_id table

/-- Claim C10, witness for `updateTrackMetadata_truthy_guard` at the
fixture track and the all-falsy payload. -/
theorem updateTrackMetadata_truthy_guard_witness :
    (applyTrackUpdates trackA falsyUpdates).title = trackA.title ∧
    (applyTrackUpdates trackA falsyUpdates).artist = trackA.artist ∧
    (applyTrackUpdates trackA falsyUpdates).genre = trackA.genre ∧
    (applyTrackUpdates trackA falsyUpdates).description = trackA.description ∧
    (applyTrackUpdates trackA falsyUpdates).bpm = trackA.bpm ∧
    updateTrackMetadata [trackA] "t0" falsyUpdates = [trackA] := by
  have h := updateTrackMetadata_truthy_guard trackA falsyUpdates
  exact ⟨h.1 rfl, h.2.1 rfl, h.2.2.1 rfl, h.2.2.2.1 rfl, h.2.2.2.2.1 rfl,
    h.2.2.2.2.2 [trackA] "t0"⟩

/-! ## Claim C7 — bucket fallback of uploadTrackFile -/

/-- Claim C7: the upload goes first to the primary bucket `Syncmaster`;
on a "not found" response it is retried against the alternates
`syncmaster` and then `tracks`, in that order; whenever the surviving
attempt failed — including a non-"not found" failure of the primary —
the function throws an error whose message ends with the operator
configuration hint; on any success path it returns the public URL from
the bucket that accepted the file. -/
theorem uploadTrackFile_bucket_fallback
    (attempt : String → Option StorageErr) (gpu : String → String) :
    (attempt "Syncmaster" = none →
      uploadTrackFile attempt gpu = .ok (gpu "Syncmaster")) ∧
    (∀ e, attempt "Syncmaster" = some e → isNotFoundErr e = true →
      attempt "syncmaster" = none →
      uploadTrackFile attempt gpu = .ok (gpu "syncmaster")) ∧
    (∀ e e1, attempt "Syncmaster" = some e → isNotFoundErr e = true →
      attempt "syncmaster" = some e1 → attempt "tracks" = none →
      uploadTrackFile attempt gpu = .ok (gpu "tracks")) ∧
    (∀ e e1 e2, attempt "Syncmaster" = some e → isNotFoundErr e = true →
      attempt "syncmaster" = some e1 → attempt "tracks" = some e2 →
      uploadTrackFile attempt gpu =
        .error ("Upload Failed: " ++ e2.message ++ uploadHint)) ∧
    (∀ e, attempt "Syncmaster" = some e → isNotFoundErr e = false →
      uploadTrackFile attempt gpu =
        .error ("Upload Failed: " ++ e.message ++ uploadHint)) := by
  refine ⟨?_, ?_, ?_, ?_, ?_⟩
  · intro h
    simp [uploadTrackFile, h]
  · intro e h1 h2 h3
    simp [uploadTrackFile, h1, h2, h3]
  · intro e e1 h1 h2 h3 h4
    simp [uploadTrackFile, h1, h2, h3, h4]
  · intro e e1 e2 h1 h2 h3 h4
    simp [uploadTrackFile, h1, h2, h3, h4]
  · intro e h1 h2
    simp [uploadTrackFile, h1, h2]

/-- Claim C7, witness for `uploadTrackFile_bucket_fallback`: with both
`Syncmaster` buckets missing the upload lands in `tracks` and the
returned URL points at that bucket; with a storage service accepting
everything the URL points at the primary; with a non-"not found" denial
the thrown message carries the configuration hint. -/
theorem uploadTrackFile_bucket_fallback_witness :
    uploadTrackFile attemptOnlyTracks gpuMock
      = .ok "https://storage/tracks/f.mp3" ∧
    uploadTrackFile attemptAccept gpuMock
      = .ok "https://storage/Syncmaster/f.mp3" ∧
    uploadTrackFile attemptDenied gpuMock
      = .error ("Upload Failed: new row violates row-level security policy"
          ++ uploadHint) := by
  have h3 := (uploadTrackFile_bucket_fallback attemptOnlyTracks gpuMock).2.2.1
    { message := "Bucket not found", statusCode := some "404" }
    { message := "Bucket not found", statusCode := some "404" }
    (by decide) (by decide) (by decide) (by decide)
  have h1 := (uploadTrackFile_bucket_fallback attemptAccept gpuMock).1 rfl
  have h5 := (uploadTrackFile_bucket_fallback attemptDenied gpuMock).2.2.2.2
    { message := "new row violates row-level security policy",
      statusCode := some "403" }
    (by decide) (by decide)
  exact ⟨h3, h1, h5⟩

/-! ## Claim C9 — JSON extraction of the research adapter -/

/-- Claim C9: for every provider text response, `searchSyncDatabase`
extracts the substring from the first left brace through the last right
brace (and `getTrendingSyncs` from the first left bracket through the
last right bracket) before parsing, so a well-formed payload wrapped in
extraneous leading and trailing text is still handed to the parser
unchanged; and when parsing fails, `searchSyncDatabase` returns `none`
and `getTrendingSyncs` returns the empty list instead of throwing. -/
theorem gemini_extraction_spec {α β : Type}
    (parseR : String → Option α) (parseT : String → Option (List β)) :
    (∀ (pre payload post : String) (mid : List Char),
      lbrace ∉ pre.data → rbrace ∉ post.data →
      payload.data = lbrace :: (mid ++ [rbrace]) →
      searchSyncDatabase parseR (some (pre ++ payload ++ post))
        = parseR payload) ∧
    (∀ (pre payload post : String) (mid : List Char) (lst : List β),
      ('[' : Char) ∉ pre.data → (']' : Char) ∉ post.data →
      payload.data = '[' :: (mid ++ [']']) →
      parseT payload = some lst →
      getTrendingSyncs parseT (some (pre ++ payload ++ post)) = lst) ∧
    ((∀ t, parseR t = none) →
      ∀ rt, searchSyncDatabase parseR rt = none) ∧
    ((∀ t, parseT t = none) →
      ∀ rt, getTrendingSyncs parseT rt = []) := by
  refine ⟨?_, ?_, ?_, ?_⟩
  · intro pre payload post mid hpre hpost hpay
    have hne : pre ++ payload ++ post ≠ "" := by
      intro h0
      have hd : (pre ++ payload ++ post).data = [] := by simp [h0]
      simp [hpay] at hd
    unfold searchSyncDatabase geminiText
    dsimp only
    rw [if_neg hne,
      extractDelimited_wrapped lbrace rbrace pre payload post mid
        hpre hpost hpay]
  · intro pre payload post mid lst hpre hpost hpay hparse
    have hne : pre ++ payload ++ post ≠ "" := by
      intro h0
      have hd : (pre ++ payload ++ post).data = [] := by simp [h0]
      simp [hpay] at hd
    unfold getTrendingSyncs geminiText
    dsimp only
    rw [if_neg hne,
      extractDelimited_wrapped '[' ']' pre payload post mid
        hpre hpost hpay, hparse]
    rfl
  · intro hfail rt
    unfold searchSyncDatabase
    exact hfail _
  · intro hfail rt
    unfold getTrendingSyncs
    rw [hfail]
    rfl

/-- Claim C9, witness for `gemini_extraction_spec` at concrete wrapped
payloads and a concrete failing parser. -/
theorem gemini_extraction_spec_witness :
    searchSyncDatabase parseObjMock
      (some ("noise " ++ "\x7b\"a\":1\x7d" ++ " tail")) = some 1 ∧
    getTrendingSyncs parseArrMock (some ("x " ++ "[1,2]" ++ " y")) = [1, 2] ∧
    searchSyncDatabase (parseFailMock (α := Nat)) (some "junk") = none ∧
    getTrendingSyncs (parseFailMock (α := List Nat)) (some "junk") = [] := by
  have h := gemini_extraction_spec parseObjMock parseArrMock
  refine ⟨?_, ?_, ?_, ?_⟩
  · rw [h.1 "noise " "\x7b\"a\":1\x7d" " tail" ("\"a\":1".data)
      (by decide) (by decide) (by decide)]
    decide
  · exact h.2.1 "x " "[1,2]" " y" ("1,2".data) [1, 2]
      (by decide) (by decide) (by decide) (by decide)
  · exact (gemini_extraction_spec (parseFailMock (α := Nat))
      (parseFailMock (α := List Nat))).2.2.1 (fun t => rfl) (some "junk")
  · exact (gemini_extraction_spec (parseFailMock (α := Nat))
      (parseFailMock (α := List Nat))).2.2.2 (fun t => rfl) (some "junk")

end SyncMaster
